import Mathlib

/-!
# Verification of the multi-agent-orchestrator session relay

Shallow embedding of the backend of `multi-agent-orchestrator`
(`backend/worker.py`, `backend/main.py`, `backend/models.py`).

The worker side (`worker.py`) is modelled as explicit state passing over a
`WState` that holds the durable transcript (`Log` table rows), the session's
status row (`Session.status`), the Redis messages published on the session's
outbound channel, the stderr diagnostic sink, and an ordered trace of the
store/channel effects.  Fallible transport primitives (Redis publish,
database writes) are modelled as `Except`-valued operations parameterised by
failure flags; the `try/except` blocks of the source are the explicit
`match` catches in the callers.

The HTTP side (`main.py`) is modelled as pure queries over in-memory lists
of `SessionRow` / `LogRec` rows; SQL `ORDER BY` is modelled with
`List.insertionSort` on the relevant key.
-/

/-- Python's `str.strip()`: remove leading and trailing whitespace.
Modelled on the character list so the kernel can evaluate it
(`String.trim` relies on byte positions the kernel cannot reduce). -/
def pyStrip (s : String) : String :=
  String.mk (((s.data.dropWhile Char.isWhitespace).reverse.dropWhile
    Char.isWhitespace).reverse)

/-- A row of the `Log` table (`models.py`, class `Log`): `session_id`,
`type` (one of `"log"`, `"status"`, `"error"`), `content`, `timestamp`.
Timestamps are modelled as `Nat` (only their order matters). -/
structure LogRec where
  session_id : String
  type : String
  content : String
  timestamp : Nat
deriving DecidableEq, Repr

/-- A message published on a Redis channel: the channel name, the `"type"`
field of the JSON payload, the `"content"` field and the optional
`"timestamp"` field (status/error messages carry no timestamp). -/
structure PubMsg where
  channel : String
  mtype : String
  content : String
  timestamp : Option Nat
deriving DecidableEq, Repr

/-- One store/channel side effect, used to record the order in which the
worker performs its external writes. -/
inductive Effect where
  | publish : PubMsg → Effect
  | append : LogRec → Effect
  | setStatus : String → Effect
deriving DecidableEq, Repr

/-- The observable state threaded through the worker: the session's status
row (`none` when the `Session` row does not exist), the durable `Log` rows
in append order, the published Redis messages in order, the stderr
diagnostic sink, and the ordered trace of store/channel effects. -/
structure WState where
  statusRow : Option String
  store : List LogRec
  chan : List PubMsg
  errlog : List String
  trace : List Effect
deriving DecidableEq, Repr

/-- Failure flags for the two transports: `pubFail` makes every
`redis_client.publish` raise, `dbFail` makes every database write raise. -/
structure Faults where
  pubFail : Bool
  dbFail : Bool
deriving DecidableEq, Repr

/-- The fault-free environment. -/
def noFaults : Faults := ⟨false, false⟩

/-- `redis_client.publish(channel, json.dumps(msg))`: appends the message to
the channel and the trace, or raises when the transport is down. -/
def redisPublishOp (fail : Bool) (st : WState) (m : PubMsg) :
    Except String WState :=
  if fail then Except.error "redis connection error"
  else Except.ok { st with
    chan := st.chan ++ [m],
    trace := st.trace ++ [Effect.publish m] }

/-- `session.add(log); session.commit()` inside a `with Session(engine)`
block: appends a `Log` row, or raises when the database is down. -/
def dbAppendOp (fail : Bool) (st : WState) (r : LogRec) :
    Except String WState :=
  if fail then Except.error "db connection error"
  else Except.ok { st with
    store := st.store ++ [r],
    trace := st.trace ++ [Effect.append r] }

/-- `session.get(DBSession, session_id)` followed by the guarded status
update of `_update_db_status`: when the row exists its status is replaced,
when it does not the call is a no-op; raises when the database is down. -/
def dbSetStatusOp (fail : Bool) (st : WState) (status : String) :
    Except String WState :=
  if fail then Except.error "db connection error"
  else match st.statusRow with
    | some _ => Except.ok { st with
        statusRow := some status,
        trace := st.trace ++ [Effect.setStatus status] }
    | none => Except.ok st

/-- `worker._update_db_status(session_id, status)`: the guarded status
update; a database failure is caught, written to stderr, and swallowed. -/
def update_db_status (fail : Bool) (st : WState) (status : String) : WState :=
  match dbSetStatusOp fail st status with
  | Except.ok st1 => st1
  | Except.error e => { st with errlog := st.errlog ++ ["DB Status Update Error: " ++ e] }

/-- `worker._publish(session_id, payload)`: the guarded publish helper; a
Redis failure is caught, written to stderr, and swallowed. -/
def publishHelper (fail : Bool) (st : WState) (m : PubMsg) : WState :=
  match redisPublishOp fail st m with
  | Except.ok st1 => st1
  | Except.error e => { st with errlog := st.errlog ++ ["Redis Publish Error: " ++ e] }

namespace DBOutputRedirector

/-- `DBOutputRedirector.write(self, s)` (`worker.py` lines 83–105).
A chunk that is empty after trimming is discarded entirely; a non-empty
chunk is echoed to stderr, published on the session channel (failure caught
by a bare `except: pass`), and appended to the `Log` table (failure caught
and written to stderr).  The call always returns `len(s)`. -/
def write (f : Faults) (st : WState) (session_id s : String) (now : Nat) :
    WState × Nat :=
  if pyStrip s ≠ "" then
    let st1 := { st with errlog := st.errlog ++ ["[AGENT OUT] " ++ s] }
    let st2 := match redisPublishOp f.pubFail st1
        { channel := session_id, mtype := "log", content := s, timestamp := some now } with
      | Except.ok s2 => s2
      | Except.error _ => st1
    let st3 := match dbAppendOp f.dbFail st2
        { session_id := session_id, type := "log", content := s, timestamp := now } with
      | Except.ok s3 => s3
      | Except.error e => { st2 with errlog := st2.errlog ++ ["DB Log Error: " ++ e] }
    (st3, s.length)
  else (st, s.length)

end DBOutputRedirector

/-- Writing a sequence of chunks through the adapter, threading the state. -/
def writeAll (f : Faults) (st : WState) (session_id : String) (now : Nat) :
    List String → WState
  | [] => st
  | s :: rest =>
      writeAll f (DBOutputRedirector.write f st session_id s now).1 session_id now rest

/-- The statuses recorded in the database, in order, along an effect trace. -/
def statusEvents : List Effect → List String
  | [] => []
  | Effect.setStatus s :: rest => s :: statusEvents rest
  | _ :: rest => statusEvents rest

/-- A concrete initial state: the session row exists with status
`EXECUTING_TASK`, the transcript, channel, stderr sink and trace are empty. -/
def st0 : WState := ⟨some "EXECUTING_TASK", [], [], [], []⟩

/-- One raw message delivered by `sub.listen()`: its `'type'` field
(`"message"` for actual payloads, `"subscribe"` etc. for control frames)
and its decoded `'data'` field. -/
structure RawMsg where
  mtype : String
  data : String
deriving DecidableEq, Repr

/-- The `for message in sub.listen()` loop of
`InteractiveUserProxy.get_human_input` (`worker.py` lines 132–142): skip
non-`message` frames; on the first `message` frame, return `"exit"` if the
data is the literal `TERMINATE`, otherwise publish the `EXECUTING_TASK`
status (unguarded `redis_client.publish`, so a Redis fault escapes the
call), persist it via `_update_db_status`, and return the data verbatim.
An exhausted listen sequence falls through to `return ""`. -/
def rendezvousLoop (f : Faults) (st : WState) (session_id : String) :
    List RawMsg → Except String (WState × String)
  | [] => Except.ok (st, "")
  | m :: rest =>
    if m.mtype = "message" then
      if m.data = "TERMINATE" then Except.ok (st, "exit")
      else
        match redisPublishOp f.pubFail st
            { channel := session_id, mtype := "status",
              content := "EXECUTING_TASK", timestamp := none } with
        | Except.error e => Except.error e
        | Except.ok st1 =>
            Except.ok (update_db_status f.dbFail st1 "EXECUTING_TASK", m.data)
    else rendezvousLoop f st session_id rest

/-- `InteractiveUserProxy.get_human_input(self, prompt)` (`worker.py` lines
120–146).  The leading `print` goes through the redirected stdout, i.e.
through `DBOutputRedirector.write` (text, then the newline, which the
adapter discards); then the `WAITING_FOR_INPUT` status is published
(unguarded) and persisted, and the call blocks on the inbound channel,
modelled by the list of raw messages it will receive. -/
def get_human_input (f : Faults) (st : WState) (session_id prompt : String)
    (now : Nat) (inbound : List RawMsg) : Except String (WState × String) :=
  let stA := (DBOutputRedirector.write f st session_id
    ("WAITING FOR USER INPUT: " ++ prompt) now).1
  let stB := (DBOutputRedirector.write f stA session_id "\n" now).1
  match redisPublishOp f.pubFail stB
      { channel := session_id, mtype := "status",
        content := "WAITING_FOR_INPUT", timestamp := none } with
  | Except.error e => Except.error e
  | Except.ok st1 =>
      rendezvousLoop f (update_db_status f.dbFail st1 "WAITING_FOR_INPUT")
        session_id inbound

/-- The first decoded payload on the inbound channel: the `data` of the
first frame whose `type` is `"message"`. -/
def firstData (inbound : List RawMsg) : Option String :=
  (inbound.find? (fun m => m.mtype = "message")).map RawMsg.data

/-- The `except Exception` branch of `create_team_and_execute`
(`worker.py` lines 325–332): write the traceback to stderr, set the status
row to `ERROR` via `_update_db_status`, and publish an `error` message and
a `log` summary via `_publish`.  Nothing is appended to the `Log` table. -/
def worker_error_handler (f : Faults) (st : WState)
    (session_id ename emsg : String) : WState :=
  let error_msg := ename ++ ": " ++ emsg
  let st1 := { st with errlog := st.errlog ++
    ["[WORKER ERROR] session=" ++ session_id] }
  let st2 := update_db_status f.dbFail st1 "ERROR"
  let st3 := publishHelper f.pubFail st2
    { channel := session_id, mtype := "error",
      content := error_msg, timestamp := none }
  publishHelper f.pubFail st3
    { channel := session_id, mtype := "log",
      content := "\n**ERROR:** " ++ error_msg ++
        "\n\nSee worker logs for full traceback.", timestamp := none }

/-- The tail of `create_team_and_execute` (`worker.py` lines 320–332): when
the chat returns normally (`outcome = none`) the status row is set to
`COMPLETED` and the status change is published; when any exception reaches
the top-level handler (`outcome = some (name, message)`) the `except`
branch runs. -/
def worker_epilogue (f : Faults) (st : WState) (session_id : String)
    (outcome : Option (String × String)) : WState :=
  match outcome with
  | none =>
      let st1 := update_db_status f.dbFail st "COMPLETED"
      publishHelper f.pubFail st1
        { channel := session_id, mtype := "status",
          content := "COMPLETED", timestamp := none }
  | some (ename, emsg) => worker_error_handler f st session_id ename emsg

/- ## HTTP API model (`backend/main.py`) -/

/-- A row of the `Session` table (`models.py`, class `Session`). -/
structure SessionRow where
  id : String
  user_id : Option Nat
  task : String
  model : String
  status : String
  created_at : Nat
deriving DecidableEq, Repr

/-- `ORDER BY created_at DESC` on sessions. -/
def sessDesc (a b : SessionRow) : Prop := b.created_at ≤ a.created_at

instance : DecidableRel sessDesc := fun a b => Nat.decLe b.created_at a.created_at

instance : IsTotal SessionRow sessDesc :=
  ⟨fun a b => le_total b.created_at a.created_at⟩

instance : IsTrans SessionRow sessDesc :=
  ⟨fun _ _ _ h1 h2 => le_trans h2 h1⟩

/-- `ORDER BY timestamp` (ascending) on log rows. -/
def logAsc (a b : LogRec) : Prop := a.timestamp ≤ b.timestamp

instance : DecidableRel logAsc := fun a b => Nat.decLe a.timestamp b.timestamp

instance : IsTotal LogRec logAsc := ⟨fun a b => le_total a.timestamp b.timestamp⟩

instance : IsTrans LogRec logAsc := ⟨fun _ _ _ h1 h2 => le_trans h1 h2⟩

/-- `GET /api/sessions` (`main.py` lines 179–183): select the `Session`
rows whose `user_id` equals the authenticated user's id, ordered by
`created_at` descending. -/
def get_sessions (db : List SessionRow) (uid : Nat) : List SessionRow :=
  List.insertionSort sessDesc (db.filter (fun s => s.user_id = some uid))

/-- `GET /api/sessions/{session_id}/logs` (`main.py` lines 185–193): fetch
the session row by primary key; if it is absent or owned by a different
user, raise HTTP 404 `"Session not found"`; otherwise return the session's
`Log` rows ordered by timestamp ascending. -/
def get_session_logs (sessions : List SessionRow) (logs : List LogRec)
    (uid : Nat) (session_id : String) : Except (Nat × String) (List LogRec) :=
  match sessions.find? (fun s => s.id = session_id) with
  | none => Except.error (404, "Session not found")
  | some row =>
      if row.user_id = some uid then
        Except.ok (List.insertionSort logAsc
          (logs.filter (fun l => l.session_id = session_id)))
      else Except.error (404, "Session not found")

/-- The contents of the `status`-typed messages published along a trace,
in order. -/
def statusPublishes : List Effect → List String
  | [] => []
  | Effect.publish m :: rest =>
      if m.mtype = "status" then m.content :: statusPublishes rest
      else statusPublishes rest
  | _ :: rest => statusPublishes rest

/-- Whether an effect is a `Log`-table append. -/
def isAppendEv : Effect → Bool
  | Effect.append _ => true
  | _ => false

/-- Whether an effect is a channel publish. -/
def isPublishEv : Effect → Bool
  | Effect.publish _ => true
  | _ => false

/-- Whether, along a trace, the first `Log`-table append happens strictly
before the first channel publish. -/
def storeAppendPrecedesPublish (tr : List Effect) : Bool :=
  match tr.findIdx? isAppendEv, tr.findIdx? isPublishEv with
  | some i, some j => decide (i < j)
  | _, _ => false

/-- The state carried by a successful rendezvous result. -/
def okState : Except String (WState × String) → Option WState
  | Except.ok (s, _) => some s
  | Except.error _ => none

/-- The text returned by a successful rendezvous result. -/
def okText : Except String (WState × String) → Option String
  | Except.ok (_, t) => some t
  | Except.error _ => none

/-- The `EXECUTING_TASK` status message published when a reply resumes the
engine. -/
def execMsg (session_id : String) : PubMsg :=
  ⟨session_id, "status", "EXECUTING_TASK", none⟩

example : (DBOutputRedirector.write noFaults st0 "s1" "hello" 5).2 = 5 := by decide
example : (DBOutputRedirector.write noFaults st0 "s1" " \n" 5).1 = st0 := by decide
example : (DBOutputRedirector.write noFaults st0 "s1" "hello" 5).1.trace =
    [Effect.publish ⟨"s1", "log", "hello", some 5⟩,
     Effect.append ⟨"s1", "log", "hello", 5⟩] := by decide

/- ## Helper lemmas -/

theorem noFaults_pubFail : noFaults.pubFail = false := rfl

theorem noFaults_dbFail : noFaults.dbFail = false := rfl

theorem statusEvents_append (a b : List Effect) :
    statusEvents (a ++ b) = statusEvents a ++ statusEvents b := by
  induction a with
  | nil => rfl
  | cons e a ih => cases e <;> simp [statusEvents, ih]

theorem statusPublishes_append (a b : List Effect) :
    statusPublishes (a ++ b) = statusPublishes a ++ statusPublishes b := by
  induction a with
  | nil => rfl
  | cons e a ih =>
      cases e with
      | publish m =>
          by_cases h : m.mtype = "status" <;> simp [statusPublishes, h, ih]
      | append r => simp [statusPublishes, ih]
      | setStatus s => simp [statusPublishes, ih]

theorem write_empty (f : Faults) (st : WState) (session_id s : String)
    (now : Nat) (h : pyStrip s = "") :
    DBOutputRedirector.write f st session_id s now = (st, s.length) := by
  simp [DBOutputRedirector.write, h]

theorem write_nonempty_full (st : WState) (session_id s : String) (now : Nat)
    (h : pyStrip s ≠ "") :
    DBOutputRedirector.write noFaults st session_id s now =
      ({ statusRow := st.statusRow,
         store := st.store ++ [⟨session_id, "log", s, now⟩],
         chan := st.chan ++ [⟨session_id, "log", s, some now⟩],
         errlog := st.errlog ++ ["[AGENT OUT] " ++ s],
         trace := st.trace ++
           [Effect.publish ⟨session_id, "log", s, some now⟩,
            Effect.append ⟨session_id, "log", s, now⟩] }, s.length) := by
  simp [DBOutputRedirector.write, h, noFaults, redisPublishOp, dbAppendOp]

theorem write_preserves (f : Faults) (st : WState) (session_id s : String)
    (now : Nat) :
    (DBOutputRedirector.write f st session_id s now).1.statusRow = st.statusRow ∧
    statusEvents (DBOutputRedirector.write f st session_id s now).1.trace =
      statusEvents st.trace ∧
    statusPublishes (DBOutputRedirector.write f st session_id s now).1.trace =
      statusPublishes st.trace ∧
    (DBOutputRedirector.write f st session_id s now).2 = s.length := by
  obtain ⟨pf, df⟩ := f
  by_cases h : pyStrip s = "" <;> cases pf <;> cases df <;>
    simp [DBOutputRedirector.write, h, redisPublishOp, dbAppendOp,
      statusEvents_append, statusPublishes_append, statusEvents, statusPublishes]

theorem update_db_status_some (st : WState) (c s0 : String)
    (hrow : st.statusRow = some s0) :
    update_db_status false st c =
      { st with statusRow := some c,
                trace := st.trace ++ [Effect.setStatus c] } := by
  simp [update_db_status, dbSetStatusOp, hrow]

theorem update_db_status_fail (st : WState) (c : String) :
    update_db_status true st c =
      { st with errlog := st.errlog ++
        ["DB Status Update Error: db connection error"] } := by
  simp [update_db_status, dbSetStatusOp]

theorem publishHelper_ok (st : WState) (m : PubMsg) :
    publishHelper false st m =
      { st with chan := st.chan ++ [m],
                trace := st.trace ++ [Effect.publish m] } := by
  simp [publishHelper, redisPublishOp]

theorem publishHelper_fail (st : WState) (m : PubMsg) :
    publishHelper true st m =
      { st with errlog := st.errlog ++
        ["Redis Publish Error: redis connection error"] } := by
  simp [publishHelper, redisPublishOp]

theorem rendezvousLoop_terminate (session_id : String) :
    ∀ (inbound : List RawMsg) (st : WState),
      firstData inbound = some "TERMINATE" →
      rendezvousLoop noFaults st session_id inbound = Except.ok (st, "exit") := by
  intro inbound
  induction inbound with
  | nil => intro st h; simp [firstData] at h
  | cons m rest ih =>
      intro st h
      by_cases hm : m.mtype = "message"
      · have hdata : m.data = "TERMINATE" := by
          simp [firstData, List.find?_cons_of_pos, hm] at h
          exact h
        simp [rendezvousLoop, hm, hdata]
      · have h' : firstData rest = some "TERMINATE" := by
          simpa [firstData, List.find?_cons_of_neg, hm] using h
        simp [rendezvousLoop, hm, ih st h']

theorem rendezvousLoop_reply (session_id t : String) (hne : t ≠ "TERMINATE") :
    ∀ (inbound : List RawMsg) (st : WState) (s0 : String),
      st.statusRow = some s0 →
      firstData inbound = some t →
      rendezvousLoop noFaults st session_id inbound = Except.ok
        ({ st with statusRow := some "EXECUTING_TASK",
                   chan := st.chan ++ [execMsg session_id],
                   trace := st.trace ++
                     [Effect.publish (execMsg session_id),
                      Effect.setStatus "EXECUTING_TASK"] }, t) := by
  intro inbound
  induction inbound with
  | nil => intro st s0 _ h; simp [firstData] at h
  | cons m rest ih =>
      intro st s0 hrow h
      by_cases hm : m.mtype = "message"
      · have hdata : m.data = t := by
          simp [firstData, List.find?_cons_of_pos, hm] at h
          exact h
        have hne' : m.data ≠ "TERMINATE" := hdata ▸ hne
        simp [rendezvousLoop, hm, hne', hne, hdata, noFaults, redisPublishOp,
          update_db_status, dbSetStatusOp, hrow, execMsg, List.append_assoc]
      · have h' : firstData rest = some t := by
          simpa [firstData, List.find?_cons_of_neg, hm] using h
        simp [rendezvousLoop, hm, ih st s0 hrow h']

theorem writeAll_counts (session_id : String) (now : Nat) :
    ∀ (chunks : List String) (st : WState),
      (writeAll noFaults st session_id now chunks).store.length =
        st.store.length + (chunks.filter (fun s => pyStrip s ≠ "")).length ∧
      (writeAll noFaults st session_id now chunks).chan.length =
        st.chan.length + (chunks.filter (fun s => pyStrip s ≠ "")).length := by
  intro chunks
  induction chunks with
  | nil => intro st; simp [writeAll]
  | cons s rest ih =>
      intro st
      by_cases h : pyStrip s = ""
      · simpa [writeAll, write_empty noFaults st session_id s now h, h]
          using ih st
      · obtain ⟨ih1, ih2⟩ :=
          ih (DBOutputRedirector.write noFaults st session_id s now).1
        constructor
        · rw [writeAll, ih1, write_nonempty_full st session_id s now h]
          simp [h]
          omega
        · rw [writeAll, ih2, write_nonempty_full st session_id s now h]
          simp [h]
          omega

theorem worker_epilogue_none (st : WState) (session_id s0 : String)
    (hrow : st.statusRow = some s0) :
    worker_epilogue noFaults st session_id none =
      { st with
          statusRow := some "COMPLETED",
          chan := st.chan ++ [⟨session_id, "status", "COMPLETED", none⟩],
          trace := st.trace ++
            [Effect.setStatus "COMPLETED",
             Effect.publish ⟨session_id, "status", "COMPLETED", none⟩] } := by
  simp [worker_epilogue, noFaults, update_db_status, dbSetStatusOp, hrow,
    publishHelper, redisPublishOp, List.append_assoc]

theorem worker_error_handler_eq (st : WState)
    (session_id ename emsg s0 : String) (hrow : st.statusRow = some s0) :
    worker_error_handler noFaults st session_id ename emsg =
      { st with
          statusRow := some "ERROR",
          chan := st.chan ++
            [⟨session_id, "error", ename ++ ": " ++ emsg, none⟩,
             ⟨session_id, "log", "\n**ERROR:** " ++ (ename ++ ": " ++ emsg) ++
               "\n\nSee worker logs for full traceback.", none⟩],
          errlog := st.errlog ++ ["[WORKER ERROR] session=" ++ session_id],
          trace := st.trace ++
            [Effect.setStatus "ERROR",
             Effect.publish ⟨session_id, "error", ename ++ ": " ++ emsg, none⟩,
             Effect.publish ⟨session_id, "log", "\n**ERROR:** " ++
               (ename ++ ": " ++ emsg) ++
               "\n\nSee worker logs for full traceback.", none⟩] } := by
  simp [worker_error_handler, noFaults, update_db_status, dbSetStatusOp, hrow,
    publishHelper, redisPublishOp, List.append_assoc]

/- ## Demo rows used by counterexamples and witnesses -/

/-- A session owned by user 1. -/
def rowA : SessionRow := ⟨"a", some 1, "t1", "m", "COMPLETED", 3⟩

/-- A session owned by user 2. -/
def rowB : SessionRow := ⟨"b", some 2, "t2", "m", "COMPLETED", 5⟩

/-- A one-session table owned by user 1. -/
def demoSessions : List SessionRow := [rowA]

/-- Log rows for two sessions, out of timestamp order. -/
def demoLogs : List LogRec :=
  [⟨"a", "log", "x", 4⟩, ⟨"a", "log", "y", 2⟩, ⟨"b", "log", "z", 1⟩]

/- ## Claims -/

/-- Claim C3: a chunk that is empty after trimming produces zero records
and leaves the adapter state untouched; a non-empty chunk appends exactly
one `log` row to the store and publishes exactly one `log` message; hence
writing a sequence of chunks grows the store and the channel by exactly
the number of chunks that are non-empty after trimming. -/
theorem output_capture_record_counts :
    (∀ (st : WState) (session_id s : String) (now : Nat), pyStrip s = "" →
        DBOutputRedirector.write noFaults st session_id s now = (st, s.length)) ∧
    (∀ (st : WState) (session_id s : String) (now : Nat), pyStrip s ≠ "" →
        (DBOutputRedirector.write noFaults st session_id s now).1.store =
            st.store ++ [⟨session_id, "log", s, now⟩] ∧
        (DBOutputRedirector.write noFaults st session_id s now).1.chan =
            st.chan ++ [⟨session_id, "log", s, some now⟩]) ∧
    (∀ (st : WState) (session_id : String) (now : Nat) (chunks : List String),
        (writeAll noFaults st session_id now chunks).store.length =
          st.store.length + (chunks.filter (fun s => pyStrip s ≠ "")).length ∧
        (writeAll noFaults st session_id now chunks).chan.length =
          st.chan.length + (chunks.filter (fun s => pyStrip s ≠ "")).length) := by
  refine ⟨fun st sid s now h => write_empty noFaults st sid s now h, ?_, ?_⟩
  · intro st sid s now h
    rw [write_nonempty_full st sid s now h]
    exact ⟨rfl, rfl⟩
  · intro st sid now chunks
    exact writeAll_counts sid now chunks st

/-- Witness for C3 at concrete inputs: a whitespace-only chunk is a no-op,
a non-empty chunk appends one row, and a three-chunk sequence with one
whitespace-only chunk yields two rows. -/
theorem output_capture_record_counts_witness :
    DBOutputRedirector.write noFaults st0 "s1" " \n" 0 = (st0, 2) ∧
    (DBOutputRedirector.write noFaults st0 "s1" "hi" 0).1.store =
      st0.store ++ [⟨"s1", "log", "hi", 0⟩] ∧
    (writeAll noFaults st0 "s1" 0 ["hello ", " ", "world\n"]).store.length = 2 := by
  refine ⟨output_capture_record_counts.1 st0 "s1" " \n" 0 (by decide),
    (output_capture_record_counts.2.1 st0 "s1" "hi" 0 (by decide)).1, ?_⟩
  have h := (output_capture_record_counts.2.2 st0 "s1" 0 ["hello ", " ", "world\n"]).1
  rw [h]
  decide

/-- Counterexample to claim C4: on the concrete chunk `"hello"` the
adapter's effect trace contains one store append and one channel publish,
but the append does NOT precede the publish — the code publishes to Redis
first (line 90 of `worker.py`) and appends to the database second
(lines 94–102), the opposite of the claimed order. -/
theorem output_capture_append_first_counterexample :
    (DBOutputRedirector.write noFaults st0 "s1" "hello" 5).1.trace.any
      isAppendEv = true ∧
    (DBOutputRedirector.write noFaults st0 "s1" "hello" 5).1.trace.any
      isPublishEv = true ∧
    storeAppendPrecedesPublish
      (DBOutputRedirector.write noFaults st0 "s1" "hello" 5).1.trace = false := by
  decide

/-- Claim C4 (amended): for every non-empty chunk the adapter calls the
Broadcast Channel publish first and the Transcript Store append second,
in that order. -/
theorem output_capture_publish_before_append (st : WState)
    (session_id s : String) (now : Nat) (h : pyStrip s ≠ "") :
    (DBOutputRedirector.write noFaults st session_id s now).1.trace =
      st.trace ++ [Effect.publish ⟨session_id, "log", s, some now⟩,
                   Effect.append ⟨session_id, "log", s, now⟩] := by
  rw [write_nonempty_full st session_id s now h]

/-- Witness for the amended C4 at the chunk `"hello"`. -/
theorem output_capture_publish_before_append_witness :
    (DBOutputRedirector.write noFaults st0 "s1" "hello" 5).1.trace =
      st0.trace ++ [Effect.publish ⟨"s1", "log", "hello", some 5⟩,
                    Effect.append ⟨"s1", "log", "hello", 5⟩] :=
  output_capture_publish_before_append st0 "s1" "hello" 5 (by decide)

/-- Counterexample to claim C5: when the channel publish inside
`DBOutputRedirector.write` fails (here on the chunk `"hi"`), the failure
is swallowed by a bare `except Exception: pass` — the diagnostic sink
after the faulty run is identical to the diagnostic sink of the fault-free
run (only the `[AGENT OUT]` echo of the chunk itself), even though the
message was really lost (the channel stays empty while the fault-free run
publishes it).  So this failure is swallowed but NOT written to a side
diagnostic sink, contrary to the claim. -/
theorem write_publish_fault_silent_counterexample :
    (DBOutputRedirector.write ⟨true, false⟩ st0 "s1" "hi" 0).1.errlog =
      (DBOutputRedirector.write noFaults st0 "s1" "hi" 0).1.errlog ∧
    (DBOutputRedirector.write ⟨true, false⟩ st0 "s1" "hi" 0).1.chan = [] ∧
    (DBOutputRedirector.write noFaults st0 "s1" "hi" 0).1.chan =
      [⟨"s1", "log", "hi", some 0⟩] := by
  decide

/-- Claim C5 (amended): every transcript-store or broadcast-channel write
failure in the Output Capture Adapter, the status-update helper or the
publish helper is swallowed — the operation still returns normally and the
status row is untouched, so the session cannot transition to `ERROR`
because of it.  The store failure in `write`, the status-update failure
and the publish-helper failure are written to the stderr diagnostic sink;
the channel-publish failure inside `write` is swallowed silently, leaving
no diagnostic. -/
theorem transport_faults_swallowed :
    (∀ (f : Faults) (st : WState) (session_id s : String) (now : Nat),
        (DBOutputRedirector.write f st session_id s now).2 = s.length ∧
        (DBOutputRedirector.write f st session_id s now).1.statusRow =
          st.statusRow) ∧
    (∀ (st : WState) (session_id s : String) (now : Nat), pyStrip s ≠ "" →
        (DBOutputRedirector.write ⟨false, true⟩ st session_id s now).1.errlog =
          st.errlog ++ ["[AGENT OUT] " ++ s,
                        "DB Log Error: db connection error"]) ∧
    (∀ (st : WState) (session_id s : String) (now : Nat), pyStrip s ≠ "" →
        (DBOutputRedirector.write ⟨true, false⟩ st session_id s now).1.errlog =
          st.errlog ++ ["[AGENT OUT] " ++ s]) ∧
    (∀ (st : WState) (c : String),
        update_db_status true st c =
          { st with errlog := st.errlog ++
            ["DB Status Update Error: db connection error"] }) ∧
    (∀ (st : WState) (m : PubMsg),
        publishHelper true st m =
          { st with errlog := st.errlog ++
            ["Redis Publish Error: redis connection error"] }) := by
  refine ⟨fun f st sid s now =>
      ⟨(write_preserves f st sid s now).2.2.2, (write_preserves f st sid s now).1⟩,
    ?_, ?_, fun st c => update_db_status_fail st c,
    fun st m => publishHelper_fail st m⟩
  · intro st sid s now h
    simp [DBOutputRedirector.write, h, redisPublishOp, dbAppendOp]
  · intro st sid s now h
    simp [DBOutputRedirector.write, h, redisPublishOp, dbAppendOp]

/-- Witness for the amended C5 at concrete inputs and every fault flag. -/
theorem transport_faults_swallowed_witness :
    (DBOutputRedirector.write ⟨true, true⟩ st0 "s1" "hi" 0).2 = 2 ∧
    (DBOutputRedirector.write ⟨true, true⟩ st0 "s1" "hi" 0).1.statusRow =
      st0.statusRow ∧
    (DBOutputRedirector.write ⟨false, true⟩ st0 "s1" "hi" 0).1.errlog =
      st0.errlog ++ ["[AGENT OUT] hi", "DB Log Error: db connection error"] ∧
    (DBOutputRedirector.write ⟨true, false⟩ st0 "s1" "hi" 0).1.errlog =
      st0.errlog ++ ["[AGENT OUT] hi"] ∧
    update_db_status true st0 "COMPLETED" =
      { st0 with errlog := st0.errlog ++
        ["DB Status Update Error: db connection error"] } ∧
    publishHelper true st0 ⟨"s1", "status", "COMPLETED", none⟩ =
      { st0 with errlog := st0.errlog ++
        ["Redis Publish Error: redis connection error"] } :=
  ⟨(transport_faults_swallowed.1 ⟨true, true⟩ st0 "s1" "hi" 0).1,
   (transport_faults_swallowed.1 ⟨true, true⟩ st0 "s1" "hi" 0).2,
   transport_faults_swallowed.2.1 st0 "s1" "hi" 0 (by decide),
   transport_faults_swallowed.2.2.1 st0 "s1" "hi" 0 (by decide),
   transport_faults_swallowed.2.2.2.1 st0 "COMPLETED",
   transport_faults_swallowed.2.2.2.2 st0 ⟨"s1", "status", "COMPLETED", none⟩⟩

/-- Counterexample to claim C6: a concrete fault (`ValueError: boom`)
reaching the top-level handler of `create_team_and_execute` leaves the
session in the terminal `ERROR` state, yet the durable transcript (the
`Log` table) contains no record at all — the error detail is only
published on the live channel (`_publish`), never appended to the store,
so a reader of the stored transcript cannot see why the session
stopped. -/
theorem error_record_not_persisted_counterexample :
    (worker_error_handler noFaults st0 "s1" "ValueError" "boom").statusRow =
      some "ERROR" ∧
    (worker_error_handler noFaults st0 "s1" "ValueError" "boom").store = [] := by
  decide

/-- Claim C6 (amended): for every session that ends in the terminal
`ERROR` state, the error handler publishes an `error`-kind message with
the engine-reported detail on the live channel and sets the status row to
`ERROR`, but appends nothing to the durable transcript — the stored
transcript is unchanged. -/
theorem error_published_not_stored (st : WState)
    (session_id ename emsg s0 : String) (hrow : st.statusRow = some s0) :
    (worker_error_handler noFaults st session_id ename emsg).statusRow =
      some "ERROR" ∧
    (worker_error_handler noFaults st session_id ename emsg).store = st.store ∧
    (⟨session_id, "error", ename ++ ": " ++ emsg, none⟩ : PubMsg) ∈
      (worker_error_handler noFaults st session_id ename emsg).chan := by
  rw [worker_error_handler_eq st session_id ename emsg s0 hrow]
  refine ⟨rfl, rfl, ?_⟩
  simp

/-- Witness for the amended C6 at a concrete fault. -/
theorem error_published_not_stored_witness :
    (worker_error_handler noFaults st0 "s1" "ValueError" "boom").statusRow =
      some "ERROR" ∧
    (worker_error_handler noFaults st0 "s1" "ValueError" "boom").store =
      st0.store ∧
    (⟨"s1", "error", "ValueError" ++ ": " ++ "boom", none⟩ : PubMsg) ∈
      (worker_error_handler noFaults st0 "s1" "ValueError" "boom").chan :=
  error_published_not_stored st0 "s1" "ValueError" "boom" "EXECUTING_TASK"
    (by decide)

/-- Claim C9: for every chunk `s` and every fault environment, the
adapter's `write` returns the full character length of `s`; in particular,
a chunk that is whitespace-only is discarded without producing any record
(the state is returned unchanged) while the call still reports the entire
chunk as accepted. -/
theorem write_returns_full_length :
    (∀ (f : Faults) (st : WState) (session_id s : String) (now : Nat),
        (DBOutputRedirector.write f st session_id s now).2 = s.length) ∧
    (∀ (f : Faults) (st : WState) (session_id s : String) (now : Nat),
        pyStrip s = "" →
        DBOutputRedirector.write f st session_id s now = (st, s.length)) := by
  exact ⟨fun f st sid s now => (write_preserves f st sid s now).2.2.2,
    fun f st sid s now h => write_empty f st sid s now h⟩

/-- Witness for C9: the whitespace-only chunk `" \t "` yields no record
but the call still returns its full length 3. -/
theorem write_returns_full_length_witness :
    (DBOutputRedirector.write ⟨true, true⟩ st0 "s1" " \t " 9).2 = 3 ∧
    DBOutputRedirector.write ⟨true, true⟩ st0 "s1" " \t " 9 = (st0, 3) :=
  ⟨write_returns_full_length.1 ⟨true, true⟩ st0 "s1" " \t " 9,
   write_returns_full_length.2 ⟨true, true⟩ st0 "s1" " \t " 9 (by decide)⟩

/-- Counterexample to claim C7: the list-sessions operation does not
return ALL `Session` records — with a table holding a session of user 1
and a session of user 2, the query made by user 1 omits user 2's row
(`main.py` line 182 filters `WHERE user_id = current_user.id`). -/
theorem list_sessions_not_all_counterexample :
    rowB ∈ [rowA, rowB] ∧ rowB ∉ get_sessions [rowA, rowB] 1 := by
  decide

/-- Claim C7 (amended): the list-sessions operation returns exactly the
Session records owned by the authenticated caller, ordered most recent
first (non-increasing `created_at`). -/
theorem list_sessions_owned_sorted (db : List SessionRow) (uid : Nat) :
    List.Perm (get_sessions db uid)
      (db.filter (fun s => s.user_id = some uid)) ∧
    List.Sorted sessDesc (get_sessions db uid) :=
  ⟨List.perm_insertionSort sessDesc _, List.sorted_insertionSort sessDesc _⟩

/-- Claim C8: whenever the transcript query succeeds, it returns exactly
the session's log records, in non-decreasing timestamp order. -/
theorem transcript_logs_sorted (sessions : List SessionRow)
    (logs : List LogRec) (uid : Nat) (session_id : String)
    (res : List LogRec)
    (h : get_session_logs sessions logs uid session_id = Except.ok res) :
    List.Sorted logAsc res ∧
    List.Perm res (logs.filter (fun l => l.session_id = session_id)) := by
  unfold get_session_logs at h
  cases hfind : sessions.find? (fun s => s.id = session_id) with
  | none => rw [hfind] at h; exact absurd h (by simp)
  | some row =>
      rw [hfind] at h
      by_cases hu : row.user_id = some uid
      · simp only [hu, if_true, Except.ok.injEq] at h
        subst h
        exact ⟨List.sorted_insertionSort logAsc _,
          List.perm_insertionSort logAsc _⟩
      · simp [hu] at h

/-- Witness for C8 at a concrete table: the two records of session `"a"`
come back sorted by timestamp. -/
theorem transcript_logs_sorted_witness :
    List.Sorted logAsc
      [(⟨"a", "log", "y", 2⟩ : LogRec), ⟨"a", "log", "x", 4⟩] ∧
    List.Perm [(⟨"a", "log", "y", 2⟩ : LogRec), ⟨"a", "log", "x", 4⟩]
      (demoLogs.filter (fun l => l.session_id = "a")) :=
  transcript_logs_sorted demoSessions demoLogs 1 "a"
    [⟨"a", "log", "y", 2⟩, ⟨"a", "log", "x", 4⟩] (by rfl)

/-- Claim C10: the transcript query returns the same structured 404
`"Session not found"` result both when the session id is unknown and when
the session exists but is owned by a different user — the two cases are
indistinguishable to the caller. -/
theorem transcript_not_found_indistinguishable (sessions : List SessionRow)
    (logs : List LogRec) (uid : Nat) (session_id : String)
    (h : sessions.find? (fun s => s.id = session_id) = none ∨
      ∃ row, sessions.find? (fun s => s.id = session_id) = some row ∧
        row.user_id ≠ some uid) :
    get_session_logs sessions logs uid session_id =
      Except.error (404, "Session not found") := by
  unfold get_session_logs
  rcases h with h | ⟨row, hfind, hu⟩
  · rw [h]
  · rw [hfind]
    simp [hu]

/-- Witness for C10: an unknown id and a foreign-owned id produce the
identical error value. -/
theorem transcript_not_found_indistinguishable_witness :
    get_session_logs demoSessions demoLogs 1 "nope" =
      Except.error (404, "Session not found") ∧
    get_session_logs demoSessions demoLogs 2 "a" =
      Except.error (404, "Session not found") :=
  ⟨transcript_not_found_indistinguishable demoSessions demoLogs 1 "nope"
      (Or.inl (by decide)),
   transcript_not_found_indistinguishable demoSessions demoLogs 2 "a"
      (Or.inr ⟨rowA, by decide, by decide⟩)⟩

/-- Claim C1: when the first message on the session's inbound channel is a
text `t` different from the literal `TERMINATE`, the Human-Input
Rendezvous transitions the session status from `WAITING_FOR_INPUT` back to
`EXECUTING_TASK` — publishing the status change and persisting it in the
status row — and returns `t` verbatim. -/
theorem get_human_input_nonterminate_resumes (st : WState)
    (session_id prompt t s0 : String) (now : Nat) (inbound : List RawMsg)
    (hrow : st.statusRow = some s0)
    (hfirst : firstData inbound = some t)
    (hne : t ≠ "TERMINATE") :
    okText (get_human_input noFaults st session_id prompt now inbound) =
      some t ∧
    (okState (get_human_input noFaults st session_id prompt now inbound)).map
        WState.statusRow = some (some "EXECUTING_TASK") ∧
    (okState (get_human_input noFaults st session_id prompt now inbound)).map
        (fun s2 => statusEvents s2.trace) =
      some (statusEvents st.trace ++ ["WAITING_FOR_INPUT", "EXECUTING_TASK"]) ∧
    (okState (get_human_input noFaults st session_id prompt now inbound)).map
        (fun s2 => statusPublishes s2.trace) =
      some (statusPublishes st.trace ++
        ["WAITING_FOR_INPUT", "EXECUTING_TASK"]) := by
  obtain ⟨hA1, hA2, hA3, -⟩ := write_preserves noFaults st session_id
    ("WAITING FOR USER INPUT: " ++ prompt) now
  set stA := (DBOutputRedirector.write noFaults st session_id
    ("WAITING FOR USER INPUT: " ++ prompt) now).1 with hA
  obtain ⟨hB1, hB2, hB3, -⟩ := write_preserves noFaults stA session_id "\n" now
  set stB := (DBOutputRedirector.write noFaults stA session_id "\n" now).1 with hB
  have hBrow : stB.statusRow = some s0 := by rw [hB1, hA1, hrow]
  have hGH : get_human_input noFaults st session_id prompt now inbound =
      rendezvousLoop noFaults
        { stB with
            statusRow := some "WAITING_FOR_INPUT",
            chan := stB.chan ++
              [⟨session_id, "status", "WAITING_FOR_INPUT", none⟩],
            trace := stB.trace ++
              [Effect.publish
                 ⟨session_id, "status", "WAITING_FOR_INPUT", none⟩,
               Effect.setStatus "WAITING_FOR_INPUT"] }
        session_id inbound := by
    simp [get_human_input, noFaults_pubFail, noFaults_dbFail, redisPublishOp,
      update_db_status, dbSetStatusOp, ← hA, ← hB, hBrow, List.append_assoc]
  rw [hGH, rendezvousLoop_reply session_id t hne inbound _
    "WAITING_FOR_INPUT" rfl hfirst]
  refine ⟨rfl, rfl, ?_, ?_⟩
  · simp [okState, statusEvents_append, statusEvents, hB2, hA2, execMsg,
      List.append_assoc]
  · simp [okState, statusPublishes_append, statusPublishes, hB3, hA3,
      execMsg, List.append_assoc]

/-- Witness for C1: a skipped subscribe frame followed by the reply
`"yes"` resumes the session and the call returns `"yes"`. -/
theorem get_human_input_nonterminate_resumes_witness :
    okText (get_human_input noFaults st0 "s1" "continue?" 7
      [⟨"subscribe", "1"⟩, ⟨"message", "yes"⟩]) = some "yes" ∧
    (okState (get_human_input noFaults st0 "s1" "continue?" 7
      [⟨"subscribe", "1"⟩, ⟨"message", "yes"⟩])).map WState.statusRow =
      some (some "EXECUTING_TASK") ∧
    (okState (get_human_input noFaults st0 "s1" "continue?" 7
      [⟨"subscribe", "1"⟩, ⟨"message", "yes"⟩])).map
        (fun s2 => statusEvents s2.trace) =
      some (statusEvents st0.trace ++
        ["WAITING_FOR_INPUT", "EXECUTING_TASK"]) ∧
    (okState (get_human_input noFaults st0 "s1" "continue?" 7
      [⟨"subscribe", "1"⟩, ⟨"message", "yes"⟩])).map
        (fun s2 => statusPublishes s2.trace) =
      some (statusPublishes st0.trace ++
        ["WAITING_FOR_INPUT", "EXECUTING_TASK"]) :=
  get_human_input_nonterminate_resumes st0 "s1" "continue?" "yes"
    "EXECUTING_TASK" 7 [⟨"subscribe", "1"⟩, ⟨"message", "yes"⟩]
    rfl (by decide) (by decide)

/-- Claim C2: when the first message on the inbound channel is the literal
`TERMINATE`, the Rendezvous returns the sentinel `"exit"` and performs no
status transition to `EXECUTING_TASK` (the only transition recorded or
published by the call is `WAITING_FOR_INPUT`); afterwards the worker's
epilogue takes the session to a terminal state — `COMPLETED` when the
engine exits cleanly, `ERROR` when a fault reaches the top-level handler —
with no further `EXECUTING_TASK` transition. -/
theorem get_human_input_terminate_exit (st : WState)
    (session_id prompt s0 : String) (now : Nat) (inbound : List RawMsg)
    (hrow : st.statusRow = some s0)
    (hfirst : firstData inbound = some "TERMINATE") :
    okText (get_human_input noFaults st session_id prompt now inbound) =
      some "exit" ∧
    (okState (get_human_input noFaults st session_id prompt now inbound)).map
        (fun s2 => statusEvents s2.trace) =
      some (statusEvents st.trace ++ ["WAITING_FOR_INPUT"]) ∧
    (okState (get_human_input noFaults st session_id prompt now inbound)).map
        (fun s2 => statusPublishes s2.trace) =
      some (statusPublishes st.trace ++ ["WAITING_FOR_INPUT"]) ∧
    (okState (get_human_input noFaults st session_id prompt now inbound)).map
        (fun s2 => (worker_epilogue noFaults s2 session_id none).statusRow) =
      some (some "COMPLETED") ∧
    (okState (get_human_input noFaults st session_id prompt now inbound)).map
        (fun s2 =>
          statusEvents (worker_epilogue noFaults s2 session_id none).trace) =
      some (statusEvents st.trace ++ ["WAITING_FOR_INPUT", "COMPLETED"]) ∧
    (∀ ename emsg : String,
      (okState (get_human_input noFaults st session_id prompt now
          inbound)).map
          (fun s2 => (worker_epilogue noFaults s2 session_id
            (some (ename, emsg))).statusRow) =
        some (some "ERROR") ∧
      (okState (get_human_input noFaults st session_id prompt now
          inbound)).map
          (fun s2 => statusEvents (worker_epilogue noFaults s2 session_id
            (some (ename, emsg))).trace) =
        some (statusEvents st.trace ++ ["WAITING_FOR_INPUT", "ERROR"])) := by
  obtain ⟨hA1, hA2, hA3, -⟩ := write_preserves noFaults st session_id
    ("WAITING FOR USER INPUT: " ++ prompt) now
  set stA := (DBOutputRedirector.write noFaults st session_id
    ("WAITING FOR USER INPUT: " ++ prompt) now).1 with hA
  obtain ⟨hB1, hB2, hB3, -⟩ := write_preserves noFaults stA session_id "\n" now
  set stB := (DBOutputRedirector.write noFaults stA session_id "\n" now).1 with hB
  have hBrow : stB.statusRow = some s0 := by rw [hB1, hA1, hrow]
  have hGH : get_human_input noFaults st session_id prompt now inbound =
      rendezvousLoop noFaults
        { stB with
            statusRow := some "WAITING_FOR_INPUT",
            chan := stB.chan ++
              [⟨session_id, "status", "WAITING_FOR_INPUT", none⟩],
            trace := stB.trace ++
              [Effect.publish
                 ⟨session_id, "status", "WAITING_FOR_INPUT", none⟩,
               Effect.setStatus "WAITING_FOR_INPUT"] }
        session_id inbound := by
    simp [get_human_input, noFaults_pubFail, noFaults_dbFail, redisPublishOp,
      update_db_status, dbSetStatusOp, ← hA, ← hB, hBrow, List.append_assoc]
  rw [hGH, rendezvousLoop_terminate session_id inbound _ hfirst]
  refine ⟨rfl, ?_, ?_, ?_, ?_, ?_⟩
  · simp [okState, statusEvents_append, statusEvents, hB2, hA2,
      List.append_assoc]
  · simp [okState, statusPublishes_append, statusPublishes, hB3, hA3,
      List.append_assoc]
  · simp only [okState, Option.map_some']
    rw [worker_epilogue_none _ session_id "WAITING_FOR_INPUT" rfl]
  · simp only [okState, Option.map_some']
    rw [worker_epilogue_none _ session_id "WAITING_FOR_INPUT" rfl]
    simp [statusEvents_append, statusEvents, hB2, hA2, List.append_assoc]
  · intro ename emsg
    constructor
    · simp only [okState, Option.map_some', worker_epilogue]
      rw [worker_error_handler_eq _ session_id ename emsg
        "WAITING_FOR_INPUT" rfl]
    · simp only [okState, Option.map_some', worker_epilogue]
      rw [worker_error_handler_eq _ session_id ename emsg
        "WAITING_FOR_INPUT" rfl]
      simp [statusEvents_append, statusEvents, hB2, hA2, List.append_assoc]

/-- Witness for C2: sending `TERMINATE` as the first inbound message makes
the call return `"exit"`, and either epilogue branch ends terminal. -/
theorem get_human_input_terminate_exit_witness :
    okText (get_human_input noFaults st0 "s1" "continue?" 3
      [⟨"message", "TERMINATE"⟩]) = some "exit" ∧
    (okState (get_human_input noFaults st0 "s1" "continue?" 3
      [⟨"message", "TERMINATE"⟩])).map
        (fun s2 => statusEvents s2.trace) =
      some (statusEvents st0.trace ++ ["WAITING_FOR_INPUT"]) ∧
    (okState (get_human_input noFaults st0 "s1" "continue?" 3
      [⟨"message", "TERMINATE"⟩])).map
        (fun s2 => (worker_epilogue noFaults s2 "s1" none).statusRow) =
      some (some "COMPLETED") ∧
    (okState (get_human_input noFaults st0 "s1" "continue?" 3
      [⟨"message", "TERMINATE"⟩])).map
        (fun s2 => (worker_epilogue noFaults s2 "s1"
          (some ("ValueError", "boom"))).statusRow) =
      some (some "ERROR") := by
  obtain ⟨h1, h2, -, -, -, h6⟩ := get_human_input_terminate_exit st0 "s1"
    "continue?" "EXECUTING_TASK" 3 [⟨"message", "TERMINATE"⟩]
    rfl (by decide)
  exact ⟨h1, h2, by
    obtain ⟨-, -, -, h4, -, -⟩ := get_human_input_terminate_exit st0 "s1"
      "continue?" "EXECUTING_TASK" 3 [⟨"message", "TERMINATE"⟩]
      rfl (by decide)
    exact h4, (h6 "ValueError" "boom").1⟩
